import Mathlib

/-
Verification of the KalypsoServing operator's reconciliation logic.

The Go controllers (KalypsoProject, KalypsoApplication, KalypsoTritonServer)
are shallowly embedded as pure Lean functions.  I/O performed against the
Kubernetes API server is made explicit: every `Get` becomes an
`Except ApiError _` input, every write's outcome becomes an `Option ApiError`
input, and each reconcile is a total function from the resource plus these
API outcomes to a reconcile result (requeue decision, new in-memory status,
finalizer set).  Go maps used for labels are embedded as association lists
with in-place replacing insertion, matching Go's `m[k] = v` semantics.
-/

namespace KalypsoServing

/- Label and finalizer constants, from the controller sources. -/

def ProjectLabelKey : String := "kalypso-serving.io/project"

def EnvironmentLabelKey : String := "kalypso-serving.io/environment"

def ManagedByLabelKey : String := "app.kubernetes.io/managed-by"

def ManagedByLabelValue : String := "kalypso-serving"

def FinalizerName : String := "serving.kalypso.io/finalizer"

def ApplicationFinalizerName : String := "serving.kalypso.io/application-finalizer"

def ApplicationLabelKey : String := "kalypso-serving.io/application"

def TritonServerFinalizerName : String := "serving.kalypso.io/tritonserver-finalizer"

def TritonServerLabelKey : String := "kalypso-serving.io/tritonserver"

/- Go map-as-association-list helpers.  `setLabel` is `m[k] = v`:
it replaces the value in place when the key is present and appends
otherwise. -/

def setLabel : List (String × String) → String → String → List (String × String)
  | [], k, v => [(k, v)]
  | (k', v') :: rest, k, v =>
      if k' = k then (k, v) :: rest else (k', v') :: setLabel rest k v

def getLabel : List (String × String) → String → Option String
  | [], _ => none
  | (k', v') :: rest, k => if k' = k then some v' else getLabel rest k

/-- Go map read `m[k]` yields the zero value `""` when the key is absent. -/
def getLabelD (ls : List (String × String)) (k : String) : String :=
  (getLabel ls k).getD ""

def mergeLabels (base upd : List (String × String)) : List (String × String) :=
  upd.foldl (fun acc kv => setLabel acc kv.1 kv.2) base

/- Status conditions (metav1.Condition; the timestamp is not modelled). -/

structure Condition where
  condType : String
  status : Bool
  reason : String
  message : String
deriving DecidableEq

/-- meta.SetStatusCondition: replace the condition with the same type in
place, or append when no condition of that type exists. -/
def setStatusCondition : List Condition → Condition → List Condition
  | [], c => [c]
  | c' :: rest, c =>
      if c'.condType = c.condType then c :: rest else c' :: setStatusCondition rest c

def getCondition : List Condition → String → Option Condition
  | [], _ => none
  | c :: rest, t => if c.condType = t then some c else getCondition rest t

/- API error model and reconcile outcomes.  `ctrl.Result` plus the returned
error are collapsed into one outcome type: `done` is `(Result{}, nil)`,
`requeue` is `(Result{Requeue: true}, nil)`, `requeueAfter d` is
`(Result{RequeueAfter: d}, nil)` and `failed e` is `(Result{}, err)`. -/

inductive ApiError
  | notFound
  | conflict
  | otherError
deriving DecidableEq

def apiErrorString : ApiError → String
  | .notFound => "not found"
  | .conflict => "conflict"
  | .otherError => "error"

inductive ReconcileOutcome
  | done
  | requeue
  | requeueAfter (nanos : Nat)
  | failed (e : ApiError)
deriving DecidableEq

/- Finalizer helpers (controllerutil). -/

def containsFinalizer (fs : List String) (f : String) : Bool := fs.contains f

def addFinalizer (fs : List String) (f : String) : List String :=
  if fs.contains f then fs else fs ++ [f]

def removeFinalizer (fs : List String) (f : String) : List String :=
  fs.filter (fun x => x ≠ f)

/- ===== API types (api/v1alpha1) ===== -/

structure TritonParameter where
  name : String
  value : String
deriving DecidableEq

structure PythonBackendSpec where
  shmDefaultByteSize : Option Int
  extraArgs : List (String × String)
deriving DecidableEq

structure TritonConfigSpec where
  image : String
  tag : String
  parameters : List TritonParameter
  backendType : String
  pythonBackend : Option PythonBackendSpec
deriving DecidableEq

structure NetworkingSpec where
  httpPort : Option Int
  grpcPort : Option Int
  metricsPort : Option Int
deriving DecidableEq

structure LoggingSpec where
  enabled : Bool
  level : String
deriving DecidableEq

structure TracingSpec where
  enabled : Bool
  samplingRate : String
deriving DecidableEq

structure ProfileTypes where
  cpu : Bool
  memory : Bool
deriving DecidableEq

structure ProfilingSpec where
  enabled : Bool
  profiles : Option ProfileTypes
deriving DecidableEq

structure MetricsSpec where
  enabled : Bool
  interval : String
  enableServiceMonitor : Bool
deriving DecidableEq

structure ObservabilitySpec where
  enabled : Bool
  collectorEndpoint : String
  logging : Option LoggingSpec
  tracing : Option TracingSpec
  profiling : Option ProfilingSpec
  metrics : Option MetricsSpec
deriving DecidableEq

structure ResourceRequirements where
  requests : List (String × String)
  limits : List (String × String)
deriving DecidableEq

structure KalypsoTritonServerSpec where
  applicationRef : String
  storageUri : String
  tritonConfig : TritonConfigSpec
  replicas : Option Int
  resources : Option ResourceRequirements
  networking : Option NetworkingSpec
  observability : Option ObservabilitySpec
deriving DecidableEq

inductive TritonServerPhase
  | Pending
  | Running
  | Failed
deriving DecidableEq

structure KalypsoTritonServerStatus where
  phase : Option TritonServerPhase
  deploymentName : String
  serviceEndpoint : String
  availableReplicas : Int
  message : String
  conditions : List Condition
deriving DecidableEq

structure KalypsoTritonServer where
  name : String
  namespaceName : String
  deletionTimestampIsZero : Bool
  finalizers : List String
  spec : KalypsoTritonServerSpec
  status : KalypsoTritonServerStatus
deriving DecidableEq

structure GitSourceSpec where
  gitRepository : String
  branch : String
  buildWorkflow : String
deriving DecidableEq

structure StorageSpec where
  secretName : String
  region : String
  endpoint : String
deriving DecidableEq

structure KalypsoApplicationSpec where
  projectRef : String
  description : String
  source : Option GitSourceSpec
  storage : Option StorageSpec
deriving DecidableEq

inductive ApplicationPhase
  | Pending
  | Ready
  | Failed
deriving DecidableEq

structure KalypsoApplicationStatus where
  phase : Option ApplicationPhase
  activeModels : Int
  gatewayEndpoint : String
  conditions : List Condition
deriving DecidableEq

structure KalypsoApplication where
  name : String
  namespaceName : String
  deletionTimestampIsZero : Bool
  finalizers : List String
  spec : KalypsoApplicationSpec
  status : KalypsoApplicationStatus
deriving DecidableEq

structure LimitRangeSpecCR where
  limits : List String
deriving DecidableEq

structure ResourceQuotaSpecCR where
  limits : List (String × String)
  requests : List (String × String)
deriving DecidableEq

structure EnvironmentSpec where
  namespaceName : String
  description : String
  limitRange : Option LimitRangeSpecCR
  resourceQuota : Option ResourceQuotaSpecCR
deriving DecidableEq

structure KalypsoProjectSpec where
  displayName : String
  owner : String
  environments : List (String × EnvironmentSpec)
deriving DecidableEq

inductive ProjectPhase
  | Provisioning
  | Ready
  | Failed
deriving DecidableEq

def projectPhaseString : Option ProjectPhase → String
  | none => ""
  | some .Provisioning => "Provisioning"
  | some .Ready => "Ready"
  | some .Failed => "Failed"

structure KalypsoProjectStatus where
  phase : Option ProjectPhase
  conditions : List Condition
  createdNamespaces : List String
deriving DecidableEq

structure KalypsoProject where
  name : String
  namespaceName : String
  deletionTimestampIsZero : Bool
  finalizers : List String
  spec : KalypsoProjectSpec
  status : KalypsoProjectStatus
deriving DecidableEq

/- ===== Child object shapes ===== -/

structure NamespaceObj where
  name : String
  labels : List (String × String)
deriving DecidableEq

structure ResourceQuotaObj where
  name : String
  namespaceName : String
  labels : List (String × String)
  hard : List (String × String)
deriving DecidableEq

structure LimitRangeObj where
  name : String
  namespaceName : String
  labels : List (String × String)
  limits : List String
deriving DecidableEq

structure Probe where
  path : String
  port : Int
  initialDelaySeconds : Int
  periodSeconds : Int
deriving DecidableEq

structure ContainerPortSpec where
  name : String
  containerPort : Int
deriving DecidableEq

structure EnvVar where
  name : String
  value : String
deriving DecidableEq

structure Container where
  name : String
  image : String
  args : List String
  env : List EnvVar
  envFrom : List String
  ports : List ContainerPortSpec
  readinessProbe : Option Probe
  livenessProbe : Option Probe
  resources : Option ResourceRequirements
deriving DecidableEq

structure PodTemplateSpec where
  labels : List (String × String)
  containers : List Container
deriving DecidableEq

structure DeploymentSpecObj where
  replicas : Int
  selectorMatchLabels : List (String × String)
  template : PodTemplateSpec
deriving DecidableEq

structure DeploymentObj where
  name : String
  namespaceName : String
  labels : List (String × String)
  spec : DeploymentSpecObj
deriving DecidableEq

structure ServicePortSpec where
  name : String
  port : Int
  targetPort : String
deriving DecidableEq

structure ServiceSpecObj where
  selector : List (String × String)
  ports : List ServicePortSpec
  svcType : String
  clusterIP : String
deriving DecidableEq

structure ServiceObj where
  name : String
  namespaceName : String
  labels : List (String × String)
  spec : ServiceSpecObj
deriving DecidableEq

/- ===== KalypsoProject child-resource upserts ===== -/

/-- Labels put on each namespace a project reconciles. -/
def projectEnvLabels (projectName envName : String) : List (String × String) :=
  [(ProjectLabelKey, projectName),
   (EnvironmentLabelKey, envName),
   (ManagedByLabelKey, ManagedByLabelValue)]

/-- reconcileNamespace: create the namespace when absent; when present,
assign the three identifying labels into its label map and update.  Both
branches issue a write (the returned Bool): the update is unconditional. -/
def reconcileNamespace (projectName envName nsName : String)
    (existing : Option NamespaceObj) : NamespaceObj × Bool :=
  match existing with
  | none =>
      ({ name := nsName, labels := projectEnvLabels projectName envName }, true)
  | some ns =>
      let ls1 := setLabel ns.labels ProjectLabelKey projectName
      let ls2 := setLabel ls1 EnvironmentLabelKey envName
      let ls3 := setLabel ls2 ManagedByLabelKey ManagedByLabelValue
      ({ ns with labels := ls3 }, true)

/-- The `hard` resource list of the quota: the `limits` map merged directly,
then the `requests` map under a `requests.<resource>` key prefix. -/
def quotaHard (quotaSpec : ResourceQuotaSpecCR) : List (String × String) :=
  let base := quotaSpec.limits.foldl (fun acc kv => setLabel acc kv.1 kv.2) []
  quotaSpec.requests.foldl (fun acc kv => setLabel acc ("requests." ++ kv.1) kv.2) base

/-- reconcileResourceQuota: create when absent; when present, overwrite only
the spec (labels of the existing object are left as they are) and update.
Both branches issue a write. -/
def reconcileResourceQuota (projectName envName nsName : String)
    (quotaSpec : ResourceQuotaSpecCR) (existing : Option ResourceQuotaObj) :
    ResourceQuotaObj × Bool :=
  let desired : ResourceQuotaObj :=
    { name := projectName ++ "-quota",
      namespaceName := nsName,
      labels := projectEnvLabels projectName envName,
      hard := quotaHard quotaSpec }
  match existing with
  | none => (desired, true)
  | some q => ({ q with hard := desired.hard }, true)

/-- reconcileLimitRange: create when absent; when present, overwrite only the
spec and update.  Both branches issue a write. -/
def reconcileLimitRange (projectName envName nsName : String)
    (limitSpec : LimitRangeSpecCR) (existing : Option LimitRangeObj) :
    LimitRangeObj × Bool :=
  let desired : LimitRangeObj :=
    { name := projectName ++ "-limits",
      namespaceName := nsName,
      labels := projectEnvLabels projectName envName,
      limits := limitSpec.limits }
  match existing with
  | none => (desired, true)
  | some lr => ({ lr with limits := desired.limits }, true)

/- ===== KalypsoTritonServer child-resource synthesis ===== -/

/-- Container argument list built by reconcileDeployment: process name,
model-repository flag, then one flag per runtime parameter. -/
def buildArgs (spec : KalypsoTritonServerSpec) : List String :=
  ["tritonserver", "--model-repository=" ++ spec.storageUri]
    ++ spec.tritonConfig.parameters.map (fun param => "--" ++ param.name ++ "=" ++ param.value)

def serverHttpPort (spec : KalypsoTritonServerSpec) : Int :=
  match spec.networking with
  | none => 8000
  | some nw => match nw.httpPort with
    | none => 8000
    | some p => p

def serverGrpcPort (spec : KalypsoTritonServerSpec) : Int :=
  match spec.networking with
  | none => 8001
  | some nw => match nw.grpcPort with
    | none => 8001
    | some p => p

def serverMetricsPort (spec : KalypsoTritonServerSpec) : Int :=
  match spec.networking with
  | none => 8002
  | some nw => match nw.metricsPort with
    | none => 8002
    | some p => p

def serverImage (spec : KalypsoTritonServerSpec) : String :=
  if spec.tritonConfig.image = "" then "nvcr.io/nvidia/tritonserver"
  else spec.tritonConfig.image

def serverTag (spec : KalypsoTritonServerSpec) : String :=
  if spec.tritonConfig.tag = "" then "24.12-py3" else spec.tritonConfig.tag

def serverReplicas (spec : KalypsoTritonServerSpec) : Int :=
  match spec.replicas with
  | none => 1
  | some n => n

/-- The three identifying labels the server reconciler puts on its children. -/
def serverLabels (server : KalypsoTritonServer) : List (String × String) :=
  [(TritonServerLabelKey, server.name),
   (ApplicationLabelKey, server.spec.applicationRef),
   (ManagedByLabelKey, ManagedByLabelValue)]

/-- Environment variables assembled from the Application's storage block. -/
def buildEnvVars (appSpec : KalypsoApplicationSpec) : List EnvVar :=
  match appSpec.storage with
  | none => []
  | some st =>
      (if st.endpoint = "" then []
       else [{ name := "AWS_ENDPOINT_URL", value := st.endpoint },
             { name := "S3_ENDPOINT", value := st.endpoint }])
      ++ (if st.region = "" then []
          else [{ name := "AWS_DEFAULT_REGION", value := st.region }])

def buildEnvFrom (appSpec : KalypsoApplicationSpec) : List String :=
  match appSpec.storage with
  | none => []
  | some st => if st.secretName = "" then [] else [st.secretName]

/-- The single tritonserver container synthesized by reconcileDeployment. -/
def tritonContainer (server : KalypsoTritonServer) (app : KalypsoApplication) :
    Container :=
  let httpPort := serverHttpPort server.spec
  let baseContainer : Container :=
    { name := "tritonserver",
      image := serverImage server.spec ++ ":" ++ serverTag server.spec,
      args := buildArgs server.spec,
      env := buildEnvVars app.spec,
      envFrom := buildEnvFrom app.spec,
      ports := [{ name := "http", containerPort := httpPort },
                { name := "grpc", containerPort := serverGrpcPort server.spec },
                { name := "metrics", containerPort := serverMetricsPort server.spec }],
      readinessProbe := some { path := "/v2/health/ready", port := httpPort,
                               initialDelaySeconds := 10, periodSeconds := 5 },
      livenessProbe := some { path := "/v2/health/live", port := httpPort,
                              initialDelaySeconds := 15, periodSeconds := 10 },
      resources := none }
  match server.spec.resources with
  | none => baseContainer
  | some res => { baseContainer with resources := some res }

def deploymentDesiredSpec (server : KalypsoTritonServer)
    (app : KalypsoApplication) : DeploymentSpecObj :=
  { replicas := serverReplicas server.spec,
    selectorMatchLabels := serverLabels server,
    template := { labels := serverLabels server,
                  containers := [tritonContainer server app] } }

/-- The mutate function handed to CreateOrUpdate for the Deployment: merge
labels, then set the whole spec (replicas, selector, pod template with the
single tritonserver container). -/
def deploymentMutate (server : KalypsoTritonServer) (app : KalypsoApplication)
    (d : DeploymentObj) : DeploymentObj :=
  { d with
    labels := mergeLabels d.labels (serverLabels server),
    spec := deploymentDesiredSpec server app }

/-- The zero-valued Deployment object CreateOrUpdate constructs when the
named object is absent (only name and namespace are pre-set). -/
def freshDeployment (deploymentName nsName : String) : DeploymentObj :=
  { name := deploymentName,
    namespaceName := nsName,
    labels := [],
    spec := { replicas := 0, selectorMatchLabels := [],
              template := { labels := [], containers := [] } } }

def serviceDesiredSpec (server : KalypsoTritonServer) (clusterIP : String) :
    ServiceSpecObj :=
  { selector := [(TritonServerLabelKey, server.name)],
    ports := [{ name := "http", port := serverHttpPort server.spec,
                targetPort := "http" },
              { name := "grpc", port := serverGrpcPort server.spec,
                targetPort := "grpc" },
              { name := "metrics", port := serverMetricsPort server.spec,
                targetPort := "metrics" }],
    svcType := "ClusterIP",
    clusterIP := clusterIP }

/-- The mutate function handed to CreateOrUpdate for the Service: merge
labels, set selector/ports/type, preserve the cluster-assigned address. -/
def serviceMutate (server : KalypsoTritonServer) (s : ServiceObj) : ServiceObj :=
  { s with
    labels := mergeLabels s.labels (serverLabels server),
    spec := serviceDesiredSpec server s.spec.clusterIP }

def freshService (serviceName nsName : String) : ServiceObj :=
  { name := serviceName,
    namespaceName := nsName,
    labels := [],
    spec := { selector := [], ports := [], svcType := "", clusterIP := "" } }

/-- controllerutil.CreateOrUpdate: when the object is absent, mutate a fresh
object and create it (a write); when present, mutate the fetched object and
update only if the mutation changed it (DeepEqual skips the write). -/
def createOrUpdate {α : Type} [DecidableEq α] (existing : Option α)
    (mutateFn : α → α) (fresh : α) : α × Bool :=
  match existing with
  | none => (mutateFn fresh, true)
  | some obj =>
      let obj2 := mutateFn obj
      (obj2, decide (¬ obj2 = obj))

/- ===== KalypsoTritonServer reconciler ===== -/

/-- The status published at the end of a successful Server reconcile, as a
function of the re-fetched server and the deployment's available-replica
count: names, endpoint, then Running/Pending with the mirrored Available
condition. -/
def serverStatusAfter (server : KalypsoTritonServer) (availableReplicas : Int) :
    KalypsoTritonServerStatus :=
  let httpPort := serverHttpPort server.spec
  let st0 := { server.status with
    deploymentName := server.name ++ "-deploy",
    availableReplicas := availableReplicas,
    serviceEndpoint := "http://" ++ server.name ++ "-svc."
      ++ server.namespaceName ++ ".svc:" ++ toString httpPort }
  if availableReplicas > 0 then
    { st0 with
      phase := some TritonServerPhase.Running,
      message := "Triton Server is ready to serve inference.",
      conditions := setStatusCondition st0.conditions
        { condType := "Available", status := true,
          reason := "DeploymentReady",
          message := "Deployment has " ++ toString availableReplicas
            ++ " available replicas" } }
  else
    { st0 with
      phase := some TritonServerPhase.Pending,
      message := "Waiting for Triton Server to become ready.",
      conditions := setStatusCondition st0.conditions
        { condType := "Available", status := false,
          reason := "DeploymentNotReady",
          message := "Deployment has no available replicas" } }

/-- API outcomes visible to one Server reconcile invocation. -/
structure ServerApiEnv where
  appGet : Except ApiError KalypsoApplication
  deploymentUpsertErr : Option ApiError
  serviceUpsertErr : Option ApiError
  deployStatusGet : Except ApiError Int
  refetchErr : Option ApiError
  finalizerWrite : Option ApiError
  initialStatusWrite : Option ApiError
  statusWrite : Option ApiError

structure ServerReconcileResult where
  outcome : ReconcileOutcome
  status : KalypsoTritonServerStatus
  finalizers : List String
deriving DecidableEq

/-- setFailedStatus of the tritonserver controller. -/
def setFailedServerStatus (st : KalypsoTritonServerStatus) (msg : String) :
    KalypsoTritonServerStatus :=
  { st with
    phase := some .Failed,
    message := msg,
    conditions := setStatusCondition st.conditions
      { condType := "Available", status := false,
        reason := "ReconciliationFailed", message := msg } }

/-- reconcileDelete of the tritonserver controller: children are garbage
collected via owner references; remove the finalizer and update, a conflict
on that update requeueing instead of erroring. -/
def serverReconcileDelete (server : KalypsoTritonServer)
    (finalizerWrite : Option ApiError) : ServerReconcileResult :=
  let fs := removeFinalizer server.finalizers TritonServerFinalizerName
  match finalizerWrite with
  | none => { outcome := .done, status := server.status, finalizers := fs }
  | some .conflict => { outcome := .requeue, status := server.status, finalizers := fs }
  | some e => { outcome := .failed e, status := server.status, finalizers := fs }

/-- The Server Reconcile body (the resource itself has already been fetched
successfully; a failed or not-found fetch returns before this logic). -/
def serverReconcile (server : KalypsoTritonServer) (env : ServerApiEnv) :
    ServerReconcileResult :=
  if server.deletionTimestampIsZero = false then
    serverReconcileDelete server env.finalizerWrite
  else if ¬ containsFinalizer server.finalizers TritonServerFinalizerName then
    let fs := addFinalizer server.finalizers TritonServerFinalizerName
    match env.finalizerWrite with
    | none => { outcome := .requeue, status := server.status, finalizers := fs }
    | some e => { outcome := .failed e, status := server.status, finalizers := fs }
  else if server.status.phase = none then
    let st := { server.status with phase := some TritonServerPhase.Pending }
    match env.initialStatusWrite with
    | none => { outcome := .requeue, status := st, finalizers := server.finalizers }
    | some e => { outcome := .failed e, status := st, finalizers := server.finalizers }
  else
    match env.appGet with
    | .error .notFound =>
        let st := setFailedServerStatus server.status
          ("KalypsoApplication '" ++ server.spec.applicationRef ++ "' not found")
        { outcome := .requeueAfter 30000000000, status := st,
          finalizers := server.finalizers }
    | .error e =>
        { outcome := .failed e, status := server.status, finalizers := server.finalizers }
    | .ok _ =>
        match env.deploymentUpsertErr with
        | some e =>
            let st := setFailedServerStatus server.status
              ("Failed to reconcile Deployment: " ++ apiErrorString e)
            { outcome := .failed e, status := st, finalizers := server.finalizers }
        | none =>
        match env.serviceUpsertErr with
        | some e =>
            let st := setFailedServerStatus server.status
              ("Failed to reconcile Service: " ++ apiErrorString e)
            { outcome := .failed e, status := st, finalizers := server.finalizers }
        | none =>
        match env.deployStatusGet with
        | .error e =>
            { outcome := .failed e, status := server.status,
              finalizers := server.finalizers }
        | .ok availableReplicas =>
        match env.refetchErr with
        | some e =>
            { outcome := .failed e, status := server.status,
              finalizers := server.finalizers }
        | none =>
            let st := serverStatusAfter server availableReplicas
            match env.statusWrite with
            | none => { outcome := .done, status := st, finalizers := server.finalizers }
            | some .conflict =>
                { outcome := .requeue, status := st, finalizers := server.finalizers }
            | some e =>
                { outcome := .failed e, status := st, finalizers := server.finalizers }

/- ===== KalypsoApplication reconciler ===== -/

structure AppApiEnv where
  projGet : Except ApiError KalypsoProject
  listErr : Option ApiError
  servers : List KalypsoTritonServer
  refetchErr : Option ApiError
  finalizerWrite : Option ApiError
  initialStatusWrite : Option ApiError
  statusWrite : Option ApiError

structure AppReconcileResult where
  outcome : ReconcileOutcome
  status : KalypsoApplicationStatus
  finalizers : List String
deriving DecidableEq

/-- countActiveTritonServers: list the namespace's servers and count those
whose applicationRef equals this application's name; on a list failure the
returned count is the zero value 0 alongside the error. -/
def countActiveTritonServers (servers : List KalypsoTritonServer) (appName : String)
    (listErr : Option ApiError) : Int × Option ApiError :=
  match listErr with
  | some e => (0, some e)
  | none =>
      ((servers.filter (fun s => s.spec.applicationRef = appName)).length, none)

/-- setFailedStatus of the application controller: only the phase and the
Ready condition are written; the status-write error is discarded. -/
def setFailedAppStatus (st : KalypsoApplicationStatus) (msg : String) :
    KalypsoApplicationStatus :=
  { st with
    phase := some .Failed,
    conditions := setStatusCondition st.conditions
      { condType := "Ready", status := false,
        reason := "ReconciliationFailed", message := msg } }

def appReconcileDelete (app : KalypsoApplication)
    (finalizerWrite : Option ApiError) : AppReconcileResult :=
  let fs := removeFinalizer app.finalizers ApplicationFinalizerName
  match finalizerWrite with
  | none => { outcome := .done, status := app.status, finalizers := fs }
  | some .conflict => { outcome := .requeue, status := app.status, finalizers := fs }
  | some e => { outcome := .failed e, status := app.status, finalizers := fs }

/-- The Application Reconcile body. -/
def appReconcile (app : KalypsoApplication) (env : AppApiEnv) : AppReconcileResult :=
  if app.deletionTimestampIsZero = false then
    appReconcileDelete app env.finalizerWrite
  else if ¬ containsFinalizer app.finalizers ApplicationFinalizerName then
    let fs := addFinalizer app.finalizers ApplicationFinalizerName
    match env.finalizerWrite with
    | none => { outcome := .requeue, status := app.status, finalizers := fs }
    | some e => { outcome := .failed e, status := app.status, finalizers := fs }
  else if app.status.phase = none then
    let st := { app.status with phase := some ApplicationPhase.Pending }
    match env.initialStatusWrite with
    | none => { outcome := .requeue, status := st, finalizers := app.finalizers }
    | some e => { outcome := .failed e, status := st, finalizers := app.finalizers }
  else
    match env.projGet with
    | .error .notFound =>
        let st := setFailedAppStatus app.status
          ("KalypsoProject '" ++ app.spec.projectRef ++ "' not found")
        { outcome := .requeueAfter 30000000000, status := st,
          finalizers := app.finalizers }
    | .error e =>
        { outcome := .failed e, status := app.status, finalizers := app.finalizers }
    | .ok project =>
        if project.status.phase ≠ some ProjectPhase.Ready then
          match env.refetchErr with
          | some e =>
              { outcome := .failed e, status := app.status, finalizers := app.finalizers }
          | none =>
              let st := { app.status with
                conditions := setStatusCondition app.status.conditions
                  { condType := "ProjectReady", status := false,
                    reason := "ProjectNotReady",
                    message := "KalypsoProject '" ++ app.spec.projectRef
                      ++ "' is in phase: " ++ projectPhaseString project.status.phase } }
              match env.statusWrite with
              | none =>
                  { outcome := .requeueAfter 10000000000, status := st,
                    finalizers := app.finalizers }
              | some .conflict =>
                  { outcome := .requeue, status := st, finalizers := app.finalizers }
              | some e =>
                  { outcome := .failed e, status := st, finalizers := app.finalizers }
        else
          let activeModels := (countActiveTritonServers env.servers app.name env.listErr).1
          match env.refetchErr with
          | some e =>
              { outcome := .failed e, status := app.status, finalizers := app.finalizers }
          | none =>
              let st0 := { app.status with
                phase := some ApplicationPhase.Ready,
                activeModels := activeModels,
                gatewayEndpoint := "http://istio-gateway.istio-system.svc/" ++ app.name }
              let st1 := { st0 with
                conditions := setStatusCondition st0.conditions
                  { condType := "ProjectReady", status := true,
                    reason := "ProjectValidated",
                    message := "KalypsoProject '" ++ app.spec.projectRef
                      ++ "' is ready" } }
              let st := { st1 with
                conditions := setStatusCondition st1.conditions
                  { condType := "Ready", status := true,
                    reason := "ApplicationReady",
                    message := "KalypsoApplication is ready to serve" } }
              match env.statusWrite with
              | none => { outcome := .done, status := st, finalizers := app.finalizers }
              | some .conflict =>
                  { outcome := .requeue, status := st, finalizers := app.finalizers }
              | some e =>
                  { outcome := .failed e, status := st, finalizers := app.finalizers }

/- ===== KalypsoProject reconciler ===== -/

structure ProjectApiEnv where
  nsErr : String → Option ApiError
  quotaErr : String → Option ApiError
  lrErr : String → Option ApiError
  nsFetch : String → Except ApiError NamespaceObj
  nsDelete : String → Option ApiError
  finalizerWrite : Option ApiError
  initialStatusWrite : Option ApiError
  statusWrite : Option ApiError

structure ProjectReconcileResult where
  outcome : ReconcileOutcome
  status : KalypsoProjectStatus
  finalizers : List String
  deleted : List String
deriving DecidableEq

def setFailedProjectStatus (st : KalypsoProjectStatus) (msg : String) :
    KalypsoProjectStatus :=
  { st with
    phase := some .Failed,
    conditions := setStatusCondition st.conditions
      { condType := "Ready", status := false,
        reason := "ReconciliationFailed", message := msg } }

/-- One environment entry of the provisioning loop: namespace upsert, then
the optional quota and limit-range upserts; the first failing call aborts
with its status message, otherwise the namespace name is recorded.  The
oracles give each upsert call's API outcome, keyed by namespace name. -/
def projectEnvStep (projectName : String)
    (nsErr quotaErr lrErr : String → Option ApiError)
    (envName : String) (envSpec : EnvironmentSpec) :
    Except (ApiError × String) String :=
  let nsName := if envSpec.namespaceName = "" then projectName ++ "-" ++ envName
                else envSpec.namespaceName
  match nsErr nsName with
  | some e =>
      .error (e, "Failed to create namespace " ++ nsName ++ ": " ++ apiErrorString e)
  | none =>
    match envSpec.resourceQuota, quotaErr nsName with
    | some _, some e =>
        .error (e, "Failed to create ResourceQuota in " ++ nsName ++ ": "
          ++ apiErrorString e)
    | _, _ =>
      match envSpec.limitRange, lrErr nsName with
      | some _, some e =>
          .error (e, "Failed to create LimitRange in " ++ nsName ++ ": "
            ++ apiErrorString e)
      | _, _ => .ok nsName

def projectEnvLoop (projectName : String)
    (nsErr quotaErr lrErr : String → Option ApiError) :
    List (String × EnvironmentSpec) → Except (ApiError × String) (List String)
  | [] => .ok []
  | (envName, envSpec) :: rest =>
      match projectEnvStep projectName nsErr quotaErr lrErr envName envSpec with
      | .error e => .error e
      | .ok nsName =>
          match projectEnvLoop projectName nsErr quotaErr lrErr rest with
          | .error e2 => .error e2
          | .ok names => .ok (nsName :: names)

/-- The deletion loop of reconcileDelete: for each recorded namespace name,
fetch it (NotFound skips it, other errors abort), delete it only when its
project label equals the project's name (NotFound on delete is tolerated).
The returned list holds the names for which a Delete call was issued. -/
def projectDeleteLoop (projectName : String)
    (nsFetch : String → Except ApiError NamespaceObj)
    (nsDelete : String → Option ApiError) :
    List String → Except ApiError (List String)
  | [] => .ok []
  | nsName :: rest =>
      match nsFetch nsName with
      | .error .notFound => projectDeleteLoop projectName nsFetch nsDelete rest
      | .error e => .error e
      | .ok ns =>
          if getLabelD ns.labels ProjectLabelKey = projectName then
            match nsDelete nsName with
            | none =>
                (projectDeleteLoop projectName nsFetch nsDelete rest).map
                  (fun l => nsName :: l)
            | some .notFound =>
                (projectDeleteLoop projectName nsFetch nsDelete rest).map
                  (fun l => nsName :: l)
            | some e => .error e
          else projectDeleteLoop projectName nsFetch nsDelete rest

/-- reconcileDelete of the project controller.  After the deletion loop the
finalizer is removed and the object updated; that update has no conflict
handling in this controller. -/
def projectReconcileDelete (project : KalypsoProject)
    (nsFetch : String → Except ApiError NamespaceObj)
    (nsDelete : String → Option ApiError)
    (finalizerWrite : Option ApiError) : ProjectReconcileResult :=
  match projectDeleteLoop project.name nsFetch nsDelete
      project.status.createdNamespaces with
  | .error e =>
      { outcome := .failed e, status := project.status,
        finalizers := project.finalizers, deleted := [] }
  | .ok ds =>
      let fs := removeFinalizer project.finalizers FinalizerName
      match finalizerWrite with
      | none =>
          { outcome := .done, status := project.status, finalizers := fs,
            deleted := ds }
      | some e =>
          { outcome := .failed e, status := project.status, finalizers := fs,
            deleted := ds }

/-- The Project Reconcile body. -/
def projectReconcile (project : KalypsoProject) (env : ProjectApiEnv) :
    ProjectReconcileResult :=
  if project.deletionTimestampIsZero = false then
    projectReconcileDelete project env.nsFetch env.nsDelete env.finalizerWrite
  else if ¬ containsFinalizer project.finalizers FinalizerName then
    let fs := addFinalizer project.finalizers FinalizerName
    match env.finalizerWrite with
    | none =>
        { outcome := .requeue, status := project.status, finalizers := fs,
          deleted := [] }
    | some e =>
        { outcome := .failed e, status := project.status, finalizers := fs,
          deleted := [] }
  else if project.status.phase = none then
    let st := { project.status with phase := some ProjectPhase.Provisioning }
    match env.initialStatusWrite with
    | none =>
        { outcome := .requeue, status := st, finalizers := project.finalizers,
          deleted := [] }
    | some e =>
        { outcome := .failed e, status := st, finalizers := project.finalizers,
          deleted := [] }
  else
    match projectEnvLoop project.name env.nsErr env.quotaErr env.lrErr
        project.spec.environments with
    | .error (e, msg) =>
        { outcome := .failed e,
          status := setFailedProjectStatus project.status msg,
          finalizers := project.finalizers, deleted := [] }
    | .ok names =>
        let st := { project.status with
          phase := some ProjectPhase.Ready,
          createdNamespaces := names,
          conditions := setStatusCondition project.status.conditions
            { condType := "NamespaceCreated", status := true,
              reason := "NamespacesReady",
              message := "All " ++ toString names.length
                ++ " namespaces are ready" } }
        match env.statusWrite with
        | none =>
            { outcome := .done, status := st, finalizers := project.finalizers,
              deleted := [] }
        | some e =>
            { outcome := .failed e, status := st,
              finalizers := project.finalizers, deleted := [] }

/- ===== Concrete objects used to evaluate the model ===== -/

def emptyServerStatus : KalypsoTritonServerStatus :=
  { phase := none, deploymentName := "", serviceEndpoint := "",
    availableReplicas := 0, message := "", conditions := [] }

def emptyAppStatus : KalypsoApplicationStatus :=
  { phase := none, activeModels := 0, gatewayEndpoint := "", conditions := [] }

def defaultTritonConfig : TritonConfigSpec :=
  { image := "nvcr.io/nvidia/tritonserver", tag := "24.12-py3", parameters := [],
    backendType := "python", pythonBackend := none }

/-- The observability block of the repository's logging e2e test: logging
enabled at level VERBOSE. -/
def verboseLoggingObservability : ObservabilitySpec :=
  { enabled := true, collectorEndpoint := "",
    logging := some { enabled := true, level := "VERBOSE" },
    tracing := none, profiling := none, metrics := none }

def infoLoggingObservability : ObservabilitySpec :=
  { verboseLoggingObservability with logging := some { enabled := true, level := "INFO" } }

/-- The server of the repository's logging e2e test. -/
def loggingTestServer : KalypsoTritonServer :=
  { name := "logging-test-server", namespaceName := "kalypso-test",
    deletionTimestampIsZero := true, finalizers := [TritonServerFinalizerName],
    spec := { applicationRef := "test-application",
              storageUri := "s3://test-bucket/models",
              tritonConfig := defaultTritonConfig,
              replicas := none, resources := none, networking := none,
              observability := some verboseLoggingObservability },
    status := emptyServerStatus }

def loggingInfoServer : KalypsoTritonServer :=
  { loggingTestServer with
    name := "logging-info-server",
    spec := { loggingTestServer.spec with
              observability := some infoLoggingObservability } }

def testApplication : KalypsoApplication :=
  { name := "test-application", namespaceName := "kalypso-test",
    deletionTimestampIsZero := true, finalizers := [ApplicationFinalizerName],
    spec := { projectRef := "test-project", description := "", source := none,
              storage := none },
    status := emptyAppStatus }

def wTritonSpec : KalypsoTritonServerSpec :=
  { applicationRef := "recommendation-application",
    storageUri := "s3://kalypso-models/recommendation/v1/",
    tritonConfig := { image := "", tag := "",
                      parameters := [{ name := "strict-model-config", value := "false" }],
                      backendType := "python", pythonBackend := none },
    replicas := some 2, resources := none, networking := none,
    observability := none }

def wServer : KalypsoTritonServer :=
  { name := "recommendation-v1", namespaceName := "kalypso-system",
    deletionTimestampIsZero := true, finalizers := [TritonServerFinalizerName],
    spec := wTritonSpec,
    status := { emptyServerStatus with phase := some .Pending } }

def wServerRunning : KalypsoTritonServer :=
  { wServer with status := { emptyServerStatus with phase := some .Running } }

def wApp : KalypsoApplication :=
  { name := "recommendation-application", namespaceName := "kalypso-system",
    deletionTimestampIsZero := true, finalizers := [ApplicationFinalizerName],
    spec := { projectRef := "sample-project", description := "", source := none,
              storage := none },
    status := { emptyAppStatus with phase := some .Pending, activeModels := 7 } }

def wServerEnv : ServerApiEnv :=
  { appGet := .ok wApp, deploymentUpsertErr := none, serviceUpsertErr := none,
    deployStatusGet := .ok 2, refetchErr := none, finalizerWrite := none,
    initialStatusWrite := none, statusWrite := none }

def wServerEnv0 : ServerApiEnv := { wServerEnv with deployStatusGet := .ok 0 }

def conflictServerEnv : ServerApiEnv := { wServerEnv with statusWrite := some .conflict }

def wProjectReady : KalypsoProject :=
  { name := "sample-project", namespaceName := "kalypso-system",
    deletionTimestampIsZero := true, finalizers := [FinalizerName],
    spec := { displayName := "", owner := "", environments := [] },
    status := { phase := some .Ready, conditions := [], createdNamespaces := [] } }

def wAppEnv : AppApiEnv :=
  { projGet := .ok wProjectReady, listErr := none, servers := [],
    refetchErr := none, finalizerWrite := none, initialStatusWrite := none,
    statusWrite := none }

def conflictAppEnv : AppApiEnv := { wAppEnv with statusWrite := some .conflict }

def missingProjEnv : AppApiEnv := { wAppEnv with projGet := .error .notFound }

def countFailEnv : AppApiEnv := { wAppEnv with listErr := some .otherError }

def wProjectLive : KalypsoProject :=
  { name := "sample-project", namespaceName := "kalypso-system",
    deletionTimestampIsZero := true, finalizers := [FinalizerName],
    spec := { displayName := "GenAI Model Serving Demo", owner := "team-ai-research",
              environments := [] },
    status := { phase := some .Provisioning, conditions := [],
                createdNamespaces := [] } }

def conflictProjectEnv : ProjectApiEnv :=
  { nsErr := fun _ => none, quotaErr := fun _ => none, lrErr := fun _ => none,
    nsFetch := fun _ => .error .notFound, nsDelete := fun _ => none,
    finalizerWrite := none, initialStatusWrite := none,
    statusWrite := some .conflict }

def wDelProject : KalypsoProject :=
  { name := "sample-project", namespaceName := "kalypso-system",
    deletionTimestampIsZero := false, finalizers := [FinalizerName],
    spec := { displayName := "", owner := "", environments := [] },
    status := { phase := some .Ready, conditions := [],
                createdNamespaces := ["sample-project-dev", "sample-project-stage",
                                      "sample-project-prod"] } }

def wDelProjectEmpty : KalypsoProject :=
  { wDelProject with
    status := { phase := some .Provisioning, conditions := [],
                createdNamespaces := [] } }

/-- Fetch oracle for the deletion scenario: the dev namespace still carries
this project's label, the stage namespace was relabeled to another project,
the prod namespace is already gone. -/
def wNsFetch : String → Except ApiError NamespaceObj := fun nm =>
  if nm = "sample-project-dev" then
    .ok { name := nm,
          labels := [(ProjectLabelKey, "sample-project"),
                     (EnvironmentLabelKey, "dev"),
                     (ManagedByLabelKey, ManagedByLabelValue)] }
  else if nm = "sample-project-stage" then
    .ok { name := nm, labels := [(ProjectLabelKey, "other-project")] }
  else .error .notFound

def wNsDelete : String → Option ApiError := fun _ => none

/- ===== Helper lemmas ===== -/

theorem getLabel_setLabel_same (ls : List (String × String)) (k v : String) :
    getLabel (setLabel ls k v) k = some v := by
  induction ls with
  | nil => simp [setLabel, getLabel]
  | cons hd tl ih =>
      obtain ⟨k', v'⟩ := hd
      by_cases h : k' = k
      · simp [setLabel, getLabel, h]
      · simp [setLabel, getLabel, h, ih]

theorem getLabel_setLabel_ne (ls : List (String × String)) (k v k2 : String)
    (h : k2 ≠ k) : getLabel (setLabel ls k v) k2 = getLabel ls k2 := by
  have h2 : ¬ k = k2 := fun hh => h hh.symm
  induction ls with
  | nil => simp [setLabel, getLabel, h2]
  | cons hd tl ih =>
      obtain ⟨k', v'⟩ := hd
      by_cases hk : k' = k
      · subst hk
        simp [setLabel, getLabel, h2]
      · by_cases hk2 : k' = k2
        · simp [setLabel, getLabel, hk, hk2, h]
        · simp [setLabel, getLabel, hk, hk2, ih]

theorem setLabel_absorb (ls : List (String × String)) (k v : String)
    (h : getLabel ls k = some v) : setLabel ls k v = ls := by
  induction ls with
  | nil => simp [getLabel] at h
  | cons hd tl ih =>
      obtain ⟨k', v'⟩ := hd
      by_cases hk : k' = k
      · subst hk
        simp [getLabel] at h
        simp [setLabel, h]
      · simp [getLabel, hk] at h
        simp [setLabel, hk, ih h]

theorem pk_ne_ek : ProjectLabelKey ≠ EnvironmentLabelKey := by decide

theorem pk_ne_mk : ProjectLabelKey ≠ ManagedByLabelKey := by decide

theorem ek_ne_mk : EnvironmentLabelKey ≠ ManagedByLabelKey := by decide

theorem tsk_ne_alk : TritonServerLabelKey ≠ ApplicationLabelKey := by decide

theorem tsk_ne_mk : TritonServerLabelKey ≠ ManagedByLabelKey := by decide

theorem alk_ne_mk : ApplicationLabelKey ≠ ManagedByLabelKey := by decide

theorem getCondition_setStatusCondition (conds : List Condition) (c : Condition) :
    getCondition (setStatusCondition conds c) c.condType = some c := by
  induction conds with
  | nil => simp [setStatusCondition, getCondition]
  | cons c' rest ih =>
      by_cases h : c'.condType = c.condType
      · simp [setStatusCondition, getCondition, h]
      · simp [setStatusCondition, getCondition, h, ih]

theorem contains_removeFinalizer (fs : List String) (f : String) :
    containsFinalizer (removeFinalizer fs f) f = false := by
  simp only [containsFinalizer, removeFinalizer]
  rw [Bool.eq_false_iff]
  intro hcontains
  simp at hcontains

theorem mergeLabels_triple (ls : List (String × String)) (k1 v1 k2 v2 k3 v3 : String) :
    mergeLabels ls [(k1, v1), (k2, v2), (k3, v3)]
      = setLabel (setLabel (setLabel ls k1 v1) k2 v2) k3 v3 := by
  simp [mergeLabels, List.foldl]

theorem setLabel_triple_idem (ls : List (String × String)) (k1 v1 k2 v2 k3 v3 : String)
    (h12 : k1 ≠ k2) (h13 : k1 ≠ k3) (h23 : k2 ≠ k3) :
    setLabel (setLabel (setLabel
        (setLabel (setLabel (setLabel ls k1 v1) k2 v2) k3 v3) k1 v1) k2 v2) k3 v3
      = setLabel (setLabel (setLabel ls k1 v1) k2 v2) k3 v3 := by
  have g1 : getLabel (setLabel (setLabel (setLabel ls k1 v1) k2 v2) k3 v3) k1
      = some v1 := by
    rw [getLabel_setLabel_ne _ _ _ _ h13, getLabel_setLabel_ne _ _ _ _ h12,
      getLabel_setLabel_same]
  rw [setLabel_absorb _ _ _ g1]
  have g2 : getLabel (setLabel (setLabel (setLabel ls k1 v1) k2 v2) k3 v3) k2
      = some v2 := by
    rw [getLabel_setLabel_ne _ _ _ _ h23, getLabel_setLabel_same]
  rw [setLabel_absorb _ _ _ g2]
  have g3 : getLabel (setLabel (setLabel (setLabel ls k1 v1) k2 v2) k3 v3) k3
      = some v3 := getLabel_setLabel_same _ _ _
  rw [setLabel_absorb _ _ _ g3]

theorem mergeLabels_triple_idem (ls : List (String × String))
    (k1 v1 k2 v2 k3 v3 : String)
    (h12 : k1 ≠ k2) (h13 : k1 ≠ k3) (h23 : k2 ≠ k3) :
    mergeLabels (mergeLabels ls [(k1, v1), (k2, v2), (k3, v3)])
        [(k1, v1), (k2, v2), (k3, v3)]
      = mergeLabels ls [(k1, v1), (k2, v2), (k3, v3)] := by
  rw [mergeLabels_triple, mergeLabels_triple]
  exact setLabel_triple_idem ls k1 v1 k2 v2 k3 v3 h12 h13 h23

theorem mergeLabels_serverLabels_idem (server : KalypsoTritonServer)
    (ls : List (String × String)) :
    mergeLabels (mergeLabels ls (serverLabels server)) (serverLabels server)
      = mergeLabels ls (serverLabels server) := by
  simp only [serverLabels]
  exact mergeLabels_triple_idem ls _ _ _ _ _ _ tsk_ne_alk tsk_ne_mk alk_ne_mk

theorem deploymentMutate_idem (server : KalypsoTritonServer)
    (app : KalypsoApplication) (d : DeploymentObj) :
    deploymentMutate server app (deploymentMutate server app d)
      = deploymentMutate server app d := by
  simp [deploymentMutate, mergeLabels_serverLabels_idem]

theorem serviceMutate_idem (server : KalypsoTritonServer) (s : ServiceObj) :
    serviceMutate server (serviceMutate server s) = serviceMutate server s := by
  simp [serviceMutate, serviceDesiredSpec, mergeLabels_serverLabels_idem]

theorem serverReconcile_success (server : KalypsoTritonServer)
    (env : ServerApiEnv) (appObj : KalypsoApplication) (n : Int)
    (ph : TritonServerPhase)
    (h1 : server.deletionTimestampIsZero = true)
    (h2 : containsFinalizer server.finalizers TritonServerFinalizerName = true)
    (hph : server.status.phase = some ph)
    (h4 : env.appGet = .ok appObj)
    (h5 : env.deploymentUpsertErr = none)
    (h6 : env.serviceUpsertErr = none)
    (h7 : env.deployStatusGet = .ok n)
    (h8 : env.refetchErr = none)
    (h9 : env.statusWrite = none) :
    serverReconcile server env =
      { outcome := .done, status := serverStatusAfter server n,
        finalizers := server.finalizers } := by
  simp [serverReconcile, h1, h2, hph, h4, h5, h6, h7, h8, h9]

theorem serverReconcile_success_conflict (server : KalypsoTritonServer)
    (env : ServerApiEnv) (appObj : KalypsoApplication) (n : Int)
    (ph : TritonServerPhase)
    (h1 : server.deletionTimestampIsZero = true)
    (h2 : containsFinalizer server.finalizers TritonServerFinalizerName = true)
    (hph : server.status.phase = some ph)
    (h4 : env.appGet = .ok appObj)
    (h5 : env.deploymentUpsertErr = none)
    (h6 : env.serviceUpsertErr = none)
    (h7 : env.deployStatusGet = .ok n)
    (h8 : env.refetchErr = none)
    (h9 : env.statusWrite = some .conflict) :
    serverReconcile server env =
      { outcome := .requeue, status := serverStatusAfter server n,
        finalizers := server.finalizers } := by
  simp [serverReconcile, h1, h2, hph, h4, h5, h6, h7, h8, h9]

theorem reconcileNamespace_second (projectName envName nsName : String) :
    reconcileNamespace projectName envName nsName
        (some (reconcileNamespace projectName envName nsName none).1)
      = ((reconcileNamespace projectName envName nsName none).1, true) := by
  simp only [reconcileNamespace, projectEnvLabels]
  have g1 : getLabel [(ProjectLabelKey, projectName),
      (EnvironmentLabelKey, envName), (ManagedByLabelKey, ManagedByLabelValue)]
      ProjectLabelKey = some projectName := by
    simp [getLabel]
  rw [setLabel_absorb _ _ _ g1]
  have g2 : getLabel [(ProjectLabelKey, projectName),
      (EnvironmentLabelKey, envName), (ManagedByLabelKey, ManagedByLabelValue)]
      EnvironmentLabelKey = some envName := by
    simp [getLabel, pk_ne_ek]
  rw [setLabel_absorb _ _ _ g2]
  have g3 : getLabel [(ProjectLabelKey, projectName),
      (EnvironmentLabelKey, envName), (ManagedByLabelKey, ManagedByLabelValue)]
      ManagedByLabelKey = some ManagedByLabelValue := by
    simp [getLabel, pk_ne_mk, ek_ne_mk]
  rw [setLabel_absorb _ _ _ g3]

/- ===== Claim theorems ===== -/

/-- Claim C1, evaluated at the failing input: the deployment synthesized for
a KalypsoTritonServer whose observability block enables logging at level
VERBOSE carries only the process name and the model-repository flag; the
argument list contains neither the mandated exact flag for VERBOSE nor, for
the INFO variant, the mandated flag for INFO.  The synthesis code never
reads the observability block, contradicting the repository's own e2e tests
and the API documentation of the logging level field. -/
theorem c1_observability_args_not_emitted :
    (deploymentMutate loggingTestServer testApplication (freshDeployment "logging-test-server-deploy" "kalypso-test")).spec.template.containers.map Container.args
      = [["tritonserver", "--model-repository=s3://test-bucket/models"]]
  ∧ ((buildArgs loggingTestServer.spec).contains "--log-verbose=1") = false
  ∧ ((buildArgs loggingInfoServer.spec).contains "--log-info=true") = false := by
  refine ⟨by decide, by decide, by decide⟩

/-- Claim C2, counterexample: with an unchanged spec, the second reconcile's
namespace upsert still issues an Update write (the write flag is true even
though the existing namespace is exactly what the first reconcile created),
so a second reconcile does not perform zero writes to every child object. -/
theorem c2_second_reconcile_still_writes :
    (reconcileNamespace "sample-project" "dev" "sample-project-dev"
        (some (reconcileNamespace "sample-project" "dev" "sample-project-dev"
          none).1)).2 = true := rfl

/-- Claim C2 (amended): reconciling twice with identical desired state
leaves every child object's state unchanged, and the workload and
network-exposure upserts (CreateOrUpdate) issue no second write; the
namespace, quota and limit-range upserts, however, issue an update write
carrying identical content on every reconcile. -/
theorem c2_amended_state_idempotent (projectName envName nsName : String)
    (quotaSpec : ResourceQuotaSpecCR) (lrSpec : LimitRangeSpecCR)
    (server : KalypsoTritonServer) (app : KalypsoApplication)
    (deploymentName serviceName nsName2 : String) :
    reconcileNamespace projectName envName nsName
        (some (reconcileNamespace projectName envName nsName none).1)
      = ((reconcileNamespace projectName envName nsName none).1, true)
  ∧ reconcileResourceQuota projectName envName nsName quotaSpec
        (some (reconcileResourceQuota projectName envName nsName quotaSpec none).1)
      = ((reconcileResourceQuota projectName envName nsName quotaSpec none).1, true)
  ∧ reconcileLimitRange projectName envName nsName lrSpec
        (some (reconcileLimitRange projectName envName nsName lrSpec none).1)
      = ((reconcileLimitRange projectName envName nsName lrSpec none).1, true)
  ∧ createOrUpdate
        (some (createOrUpdate none (deploymentMutate server app)
          (freshDeployment deploymentName nsName2)).1)
        (deploymentMutate server app) (freshDeployment deploymentName nsName2)
      = ((createOrUpdate none (deploymentMutate server app)
          (freshDeployment deploymentName nsName2)).1, false)
  ∧ createOrUpdate
        (some (createOrUpdate none (serviceMutate server)
          (freshService serviceName nsName2)).1)
        (serviceMutate server) (freshService serviceName nsName2)
      = ((createOrUpdate none (serviceMutate server)
          (freshService serviceName nsName2)).1, false) := by
  refine ⟨reconcileNamespace_second projectName envName nsName, ?_, ?_, ?_, ?_⟩
  · simp [reconcileResourceQuota]
  · simp [reconcileLimitRange]
  · simp [createOrUpdate, deploymentMutate_idem]
  · simp [createOrUpdate, serviceMutate_idem]

/-- Claim C2, witness: the amended statement evaluated at a concrete
project environment and a concrete server. -/
theorem c2_witness :
    reconcileNamespace "sample-project" "prod" "sample-project-prod"
        (some (reconcileNamespace "sample-project" "prod" "sample-project-prod"
          none).1)
      = ((reconcileNamespace "sample-project" "prod" "sample-project-prod"
          none).1, true)
  ∧ createOrUpdate
        (some (createOrUpdate none (deploymentMutate wServer wApp)
          (freshDeployment "recommendation-v1-deploy" "kalypso-system")).1)
        (deploymentMutate wServer wApp)
        (freshDeployment "recommendation-v1-deploy" "kalypso-system")
      = ((createOrUpdate none (deploymentMutate wServer wApp)
          (freshDeployment "recommendation-v1-deploy" "kalypso-system")).1,
         false) := by
  have h := c2_amended_state_idempotent "sample-project" "prod"
    "sample-project-prod" { limits := [], requests := [] } { limits := [] }
    wServer wApp "recommendation-v1-deploy" "recommendation-v1-svc"
    "kalypso-system"
  exact ⟨h.1, h.2.2.2.1⟩

/-- Claim C7: the synthesized workload's container argument list begins with
the process name, then the model-repository flag carrying the storage URI,
then exactly one flag per free-form runtime parameter, in spec order. -/
theorem c7_argument_list_structure (server : KalypsoTritonServer)
    (app : KalypsoApplication) (d : DeploymentObj) :
    (deploymentMutate server app d).spec.template.containers.map Container.args
      = [buildArgs server.spec]
  ∧ (buildArgs server.spec).length
      = 2 + server.spec.tritonConfig.parameters.length
  ∧ (buildArgs server.spec).head? = some "tritonserver"
  ∧ (buildArgs server.spec)[1]?
      = some ("--model-repository=" ++ server.spec.storageUri)
  ∧ ∀ i p, server.spec.tritonConfig.parameters[i]? = some p →
      (buildArgs server.spec)[2 + i]?
        = some ("--" ++ p.name ++ "=" ++ p.value) := by
  refine ⟨?_, ?_, ?_, ?_, ?_⟩
  · cases h : server.spec.resources <;>
      simp [deploymentMutate, deploymentDesiredSpec, tritonContainer, h]
  · simp [buildArgs]
    omega
  · simp [buildArgs]
  · simp [buildArgs]
  · intro i p hp
    simp only [buildArgs]
    rw [List.getElem?_append_right (by simp)]
    simp [Nat.add_sub_cancel_left, hp]

/-- Claim C7, witness: evaluation at a concrete server with one runtime
parameter. -/
theorem c7_witness :
    (deploymentMutate wServer wApp (freshDeployment "recommendation-v1-deploy" "kalypso-system")).spec.template.containers.map Container.args = [buildArgs wServer.spec]
  ∧ (buildArgs wServer.spec)[2 + 0]? = some "--strict-model-config=false" := by
  have h := c7_argument_list_structure wServer wApp
    (freshDeployment "recommendation-v1-deploy" "kalypso-system")
  refine ⟨h.1, ?_⟩
  have h5 := h.2.2.2.2 0 { name := "strict-model-config", value := "false" } (by rfl)
  exact h5

/-- Claim C4: after a successful Server reconcile (the final status write
succeeded), the published phase is Running exactly when the workload's
available-replica count is positive and Pending otherwise — whatever phase
was published before — and the Available condition's status mirrors that
boolean. -/
theorem c4_phase_mirrors_available_replicas (server : KalypsoTritonServer)
    (env : ServerApiEnv) (appObj : KalypsoApplication) (n : Int)
    (h1 : server.deletionTimestampIsZero = true)
    (h2 : containsFinalizer server.finalizers TritonServerFinalizerName = true)
    (h3 : ∃ ph, server.status.phase = some ph)
    (h4 : env.appGet = .ok appObj)
    (h5 : env.deploymentUpsertErr = none)
    (h6 : env.serviceUpsertErr = none)
    (h7 : env.deployStatusGet = .ok n)
    (h8 : env.refetchErr = none)
    (h9 : env.statusWrite = none) :
    (serverReconcile server env).outcome = .done
  ∧ ((serverReconcile server env).status.phase = some .Running ↔ 0 < n)
  ∧ (n ≤ 0 → (serverReconcile server env).status.phase = some .Pending)
  ∧ (serverReconcile server env).status.availableReplicas = n
  ∧ ∃ c, getCondition (serverReconcile server env).status.conditions "Available"
        = some c ∧ (c.status = true ↔ 0 < n) := by
  obtain ⟨ph, hph⟩ := h3
  rw [serverReconcile_success server env appObj n ph h1 h2 hph h4 h5 h6 h7 h8 h9]
  by_cases hn : n > 0
  · simp only [serverStatusAfter, if_pos hn]
    refine ⟨by trivial, by simp [hn], by omega, by simp, ?_⟩
    exact ⟨_, getCondition_setStatusCondition _ _, by simp [hn]⟩
  · simp only [serverStatusAfter, if_neg hn]
    refine ⟨by trivial, by simp; omega, fun _ => by simp, by simp, ?_⟩
    exact ⟨_, getCondition_setStatusCondition _ _, by simp; omega⟩

/-- Claim C4, witness: with two available replicas the phase becomes
Running, and a server previously Running drops back to Pending when the
count is zero. -/
theorem c4_witness :
    (serverReconcile wServer wServerEnv).status.phase = some .Running
  ∧ (serverReconcile wServerRunning wServerEnv0).status.phase = some .Pending := by
  have hrun := c4_phase_mirrors_available_replicas wServer wServerEnv wApp 2
    rfl rfl ⟨.Pending, rfl⟩ rfl rfl rfl rfl rfl rfl
  have hpend := c4_phase_mirrors_available_replicas wServerRunning wServerEnv0 wApp 0
    rfl rfl ⟨.Running, rfl⟩ rfl rfl rfl rfl rfl rfl
  exact ⟨hrun.2.1.mpr (by decide), hpend.2.2.1 (by decide)⟩

/-- Claim C10: after a successful Server reconcile the published deployment
name is the server name suffixed -deploy, and the service endpoint is the
http URL of the server's -svc service at the spec's HTTP port override or
the default 8000. -/
theorem c10_status_names (server : KalypsoTritonServer)
    (env : ServerApiEnv) (appObj : KalypsoApplication) (n : Int)
    (h1 : server.deletionTimestampIsZero = true)
    (h2 : containsFinalizer server.finalizers TritonServerFinalizerName = true)
    (h3 : ∃ ph, server.status.phase = some ph)
    (h4 : env.appGet = .ok appObj)
    (h5 : env.deploymentUpsertErr = none)
    (h6 : env.serviceUpsertErr = none)
    (h7 : env.deployStatusGet = .ok n)
    (h8 : env.refetchErr = none)
    (h9 : env.statusWrite = none) :
    (serverReconcile server env).status.deploymentName = server.name ++ "-deploy"
  ∧ (serverReconcile server env).status.serviceEndpoint
      = "http://" ++ server.name ++ "-svc." ++ server.namespaceName ++ ".svc:"
        ++ toString (serverHttpPort server.spec)
  ∧ (server.spec.networking = none → serverHttpPort server.spec = 8000)
  ∧ (∀ nw, server.spec.networking = some nw → nw.httpPort = none →
        serverHttpPort server.spec = 8000)
  ∧ (∀ nw p, server.spec.networking = some nw → nw.httpPort = some p →
        serverHttpPort server.spec = p) := by
  obtain ⟨ph, hph⟩ := h3
  rw [serverReconcile_success server env appObj n ph h1 h2 hph h4 h5 h6 h7 h8 h9]
  refine ⟨?_, ?_, ?_, ?_, ?_⟩
  · by_cases hn : n > 0 <;> simp [serverStatusAfter, hn]
  · by_cases hn : n > 0 <;> simp [serverStatusAfter, hn]
  · intro hnw
    simp [serverHttpPort, hnw]
  · intro nw hnw hp
    simp [serverHttpPort, hnw, hp]
  · intro nw p hnw hp
    simp [serverHttpPort, hnw, hp]

/-- Claim C10, witness: evaluation at a concrete server with no networking
override. -/
theorem c10_witness :
    (serverReconcile wServer wServerEnv).status.deploymentName
      = "recommendation-v1-deploy"
  ∧ (serverReconcile wServer wServerEnv).status.serviceEndpoint
      = "http://recommendation-v1-svc.kalypso-system.svc:8000" := by
  have h := c10_status_names wServer wServerEnv wApp 2
    rfl rfl ⟨.Pending, rfl⟩ rfl rfl rfl rfl rfl rfl
  refine ⟨h.1.trans (by decide), h.2.1.trans (by decide)⟩

/-- Claim C3, counterexample: the Project reconciler returns a
version-conflict error on its final status write as an error instead of a
requeue — evaluated at a live project with its finalizer present, a set
phase, no environments, and a conflicting status write. -/
theorem c3_project_conflict_returned_as_error :
    (projectReconcile wProjectLive conflictProjectEnv).outcome
      = .failed .conflict := rfl

/-- Claim C3 (amended): the Application and Server reconcilers treat a
version conflict on their final status write as a recoverable requeue, but
the Project reconciler propagates the same conflict as an error. -/
theorem c3_amended_conflict_handling
    (server : KalypsoTritonServer) (senv : ServerApiEnv)
    (appObj : KalypsoApplication)
    (app2 : KalypsoApplication) (aenv : AppApiEnv) (projObj : KalypsoProject)
    (project : KalypsoProject) (penv : ProjectApiEnv)
    (n : Int) (names : List String)
    (hs1 : server.deletionTimestampIsZero = true)
    (hs2 : containsFinalizer server.finalizers TritonServerFinalizerName = true)
    (hs3 : ∃ ph, server.status.phase = some ph)
    (hs4 : senv.appGet = .ok appObj)
    (hs5 : senv.deploymentUpsertErr = none)
    (hs6 : senv.serviceUpsertErr = none)
    (hs7 : senv.deployStatusGet = .ok n)
    (hs8 : senv.refetchErr = none)
    (hs9 : senv.statusWrite = some .conflict)
    (ha1 : app2.deletionTimestampIsZero = true)
    (ha2 : containsFinalizer app2.finalizers ApplicationFinalizerName = true)
    (ha3 : ∃ ph, app2.status.phase = some ph)
    (ha4 : aenv.projGet = .ok projObj)
    (ha5 : projObj.status.phase = some .Ready)
    (ha6 : aenv.refetchErr = none)
    (ha7 : aenv.statusWrite = some .conflict)
    (hp1 : project.deletionTimestampIsZero = true)
    (hp2 : containsFinalizer project.finalizers FinalizerName = true)
    (hp3 : ∃ ph, project.status.phase = some ph)
    (hp4 : projectEnvLoop project.name penv.nsErr penv.quotaErr penv.lrErr
        project.spec.environments = .ok names)
    (hp5 : penv.statusWrite = some .conflict) :
    (serverReconcile server senv).outcome = .requeue
  ∧ (appReconcile app2 aenv).outcome = .requeue
  ∧ (projectReconcile project penv).outcome = .failed .conflict := by
  obtain ⟨sph, hsph⟩ := hs3
  obtain ⟨aph, haph⟩ := ha3
  obtain ⟨pph, hpph⟩ := hp3
  refine ⟨?_, ?_, ?_⟩
  · rw [serverReconcile_success_conflict server senv appObj n sph
      hs1 hs2 hsph hs4 hs5 hs6 hs7 hs8 hs9]
  · simp [appReconcile, ha1, ha2, haph, ha4, ha5, ha6, ha7]
  · simp [projectReconcile, hp1, hp2, hpph, hp4, hp5]

/-- Claim C3, witness: the amended statement evaluated at concrete
resources, one per reconciler, each with a conflicting final status write. -/
theorem c3_witness :
    (serverReconcile wServer conflictServerEnv).outcome = .requeue
  ∧ (appReconcile wApp conflictAppEnv).outcome = .requeue
  ∧ (projectReconcile wProjectLive conflictProjectEnv).outcome
      = .failed .conflict :=
  c3_amended_conflict_handling wServer conflictServerEnv wApp wApp
    conflictAppEnv wProjectReady wProjectLive conflictProjectEnv 2 []
    rfl rfl ⟨.Pending, rfl⟩ rfl rfl rfl rfl rfl rfl
    rfl rfl ⟨.Pending, rfl⟩ rfl rfl rfl rfl
    rfl rfl ⟨.Provisioning, rfl⟩ rfl rfl

/-- Claim C6: when the referenced project does not exist, the Application
reconcile sets phase Failed with a Ready condition whose message names the
missing reference, and returns a 30-second fixed-delay requeue instead of
an error. -/
theorem c6_missing_project_requeues (app : KalypsoApplication) (env : AppApiEnv)
    (h1 : app.deletionTimestampIsZero = true)
    (h2 : containsFinalizer app.finalizers ApplicationFinalizerName = true)
    (h3 : ∃ ph, app.status.phase = some ph)
    (h4 : env.projGet = .error .notFound) :
    (appReconcile app env).outcome = .requeueAfter 30000000000
  ∧ (appReconcile app env).status.phase = some .Failed
  ∧ getCondition (appReconcile app env).status.conditions "Ready"
      = some { condType := "Ready", status := false,
               reason := "ReconciliationFailed",
               message := "KalypsoProject '" ++ app.spec.projectRef
                 ++ "' not found" } := by
  obtain ⟨ph, hph⟩ := h3
  have hshape : appReconcile app env =
      { outcome := .requeueAfter 30000000000,
        status := setFailedAppStatus app.status
          ("KalypsoProject '" ++ app.spec.projectRef ++ "' not found"),
        finalizers := app.finalizers } := by
    simp [appReconcile, h1, h2, hph, h4]
  rw [hshape]
  refine ⟨rfl, rfl, ?_⟩
  simp only [setFailedAppStatus]
  exact getCondition_setStatusCondition _ _

/-- Claim C6, witness: evaluated at a concrete application whose project
reference resolves to NotFound. -/
theorem c6_witness :
    (appReconcile wApp missingProjEnv).outcome = .requeueAfter 30000000000
  ∧ (appReconcile wApp missingProjEnv).status.phase = some .Failed
  ∧ getCondition (appReconcile wApp missingProjEnv).status.conditions "Ready"
      = some { condType := "Ready", status := false,
               reason := "ReconciliationFailed",
               message := "KalypsoProject 'sample-project' not found" } := by
  have h := c6_missing_project_requeues wApp missingProjEnv rfl rfl
    ⟨.Pending, rfl⟩ rfl
  exact ⟨h.1, h.2.1, h.2.2.trans (by rfl)⟩

/-- Claim C9: when listing the dependent servers fails, the Application
reconcile still publishes phase Ready but writes the count function's error
value 0 into status.ActiveModels, regardless of any previously published
count. -/
theorem c9_count_failure_publishes_zero (app : KalypsoApplication)
    (env : AppApiEnv) (projObj : KalypsoProject) (e : ApiError)
    (h1 : app.deletionTimestampIsZero = true)
    (h2 : containsFinalizer app.finalizers ApplicationFinalizerName = true)
    (h3 : ∃ ph, app.status.phase = some ph)
    (h4 : env.projGet = .ok projObj)
    (h5 : projObj.status.phase = some .Ready)
    (h6 : env.listErr = some e)
    (h7 : env.refetchErr = none)
    (h8 : env.statusWrite = none) :
    (appReconcile app env).outcome = .done
  ∧ (appReconcile app env).status.phase = some .Ready
  ∧ (appReconcile app env).status.activeModels = 0
  ∧ countActiveTritonServers env.servers app.name env.listErr = (0, some e) := by
  obtain ⟨ph, hph⟩ := h3
  refine ⟨?_, ?_, ?_, by simp [countActiveTritonServers, h6]⟩ <;>
    simp [appReconcile, h1, h2, hph, h4, h5, h6, h7, h8, countActiveTritonServers]

/-- Claim C9, witness: an application whose previously published count was 7
republishes 0 when the count fails. -/
theorem c9_witness :
    (appReconcile wApp countFailEnv).status.activeModels = 0
  ∧ (appReconcile wApp countFailEnv).status.phase = some .Ready
  ∧ wApp.status.activeModels = 7 := by
  have h := c9_count_failure_publishes_zero wApp countFailEnv wProjectReady
    .otherError rfl rfl ⟨.Pending, rfl⟩ rfl rfl rfl rfl rfl
  exact ⟨h.2.2.1, h.2.1, rfl⟩

theorem projectDeleteLoop_ok (projectName : String)
    (nsFetch : String → Except ApiError NamespaceObj)
    (nsDelete : String → Option ApiError) (l : List String)
    (hfetch : ∀ nm, nm ∈ l →
        nsFetch nm = .error .notFound ∨ ∃ ns, nsFetch nm = .ok ns)
    (hdel : ∀ nm, nsDelete nm = none ∨ nsDelete nm = some .notFound) :
    ∃ ds, projectDeleteLoop projectName nsFetch nsDelete l = .ok ds
      ∧ ∀ nm, nm ∈ ds → ∃ ns, nsFetch nm = .ok ns
          ∧ getLabelD ns.labels ProjectLabelKey = projectName := by
  induction l with
  | nil => exact ⟨[], rfl, by simp⟩
  | cons nm rest ih =>
      obtain ⟨ds, hds, hprop⟩ :=
        ih (fun x hx => hfetch x (List.mem_cons_of_mem _ hx))
      rcases hfetch nm (List.mem_cons_self _ _) with hnf | ⟨ns, hok⟩
      · exact ⟨ds, by simp [projectDeleteLoop, hnf, hds], hprop⟩
      · by_cases hl : getLabelD ns.labels ProjectLabelKey = projectName
        · have hmemprop : ∀ x, x ∈ nm :: ds → ∃ ns2, nsFetch x = .ok ns2
              ∧ getLabelD ns2.labels ProjectLabelKey = projectName := by
            intro x hx
            rcases List.mem_cons.mp hx with hx | hx
            · subst hx
              exact ⟨ns, hok, hl⟩
            · exact hprop x hx
          rcases hdel nm with hd | hd
          · exact ⟨nm :: ds,
              by simp [projectDeleteLoop, hok, hl, hd, hds, Except.map], hmemprop⟩
          · exact ⟨nm :: ds,
              by simp [projectDeleteLoop, hok, hl, hd, hds, Except.map], hmemprop⟩
        · exact ⟨ds, by simp [projectDeleteLoop, hok, hl, hds], hprop⟩

/-- Claim C5: during Project deletion cleanup with no hard API failure
(fetches succeed or return NotFound, deletes succeed or return NotFound),
the reconcile completes, removes the finalizer, deletes only namespaces
whose project label equals the project's name, and leaves every namespace
whose label names a different project untouched. -/
theorem c5_cleanup_scoped_to_labeled (project : KalypsoProject)
    (nsFetch : String → Except ApiError NamespaceObj)
    (nsDelete : String → Option ApiError)
    (hfetch : ∀ nm, nm ∈ project.status.createdNamespaces →
        nsFetch nm = .error .notFound ∨ ∃ ns, nsFetch nm = .ok ns)
    (hdel : ∀ nm, nsDelete nm = none ∨ nsDelete nm = some .notFound) :
    (projectReconcileDelete project nsFetch nsDelete none).outcome = .done
  ∧ containsFinalizer
      (projectReconcileDelete project nsFetch nsDelete none).finalizers
      FinalizerName = false
  ∧ (∀ nm, nm ∈ (projectReconcileDelete project nsFetch nsDelete none).deleted →
      ∃ ns, nsFetch nm = .ok ns
        ∧ getLabelD ns.labels ProjectLabelKey = project.name)
  ∧ (∀ nm ns, nsFetch nm = .ok ns →
      getLabelD ns.labels ProjectLabelKey ≠ project.name →
      nm ∉ (projectReconcileDelete project nsFetch nsDelete none).deleted) := by
  obtain ⟨ds, hds, hprop⟩ :=
    projectDeleteLoop_ok project.name nsFetch nsDelete _ hfetch hdel
  have hr : projectReconcileDelete project nsFetch nsDelete none =
      { outcome := .done, status := project.status,
        finalizers := removeFinalizer project.finalizers FinalizerName,
        deleted := ds } := by
    simp [projectReconcileDelete, hds]
  rw [hr]
  refine ⟨rfl, contains_removeFinalizer _ _, hprop, ?_⟩
  intro nm ns hok hne hmem
  obtain ⟨ns2, hok2, hl2⟩ := hprop nm hmem
  rw [hok] at hok2
  injection hok2 with hns
  subst hns
  exact hne hl2

/-- Claim C5, witness: three recorded namespaces — one still labeled for
this project (deleted), one relabeled to another project (kept), one
already gone (tolerated). -/
theorem c5_witness :
    (projectReconcileDelete wDelProject wNsFetch wNsDelete none).outcome = .done
  ∧ (projectReconcileDelete wDelProject wNsFetch wNsDelete none).deleted
      = ["sample-project-dev"] := by
  have h := c5_cleanup_scoped_to_labeled wDelProject wNsFetch wNsDelete
    (by
      intro nm hm
      simp [wDelProject] at hm
      rcases hm with rfl | rfl | rfl
      · exact Or.inr ⟨_, rfl⟩
      · exact Or.inr ⟨_, rfl⟩
      · exact Or.inl rfl)
    (fun nm => Or.inl rfl)
  exact ⟨h.1, rfl⟩

/-- Claim C8: a Project deleted while its recorded owned-namespace list is
empty issues no namespace deletion at all; cleanup only removes the
finalizer and, when that write succeeds, completes. -/
theorem c8_empty_owned_list_no_deletions (project : KalypsoProject)
    (nsFetch : String → Except ApiError NamespaceObj)
    (nsDelete : String → Option ApiError) (fw : Option ApiError)
    (h : project.status.createdNamespaces = []) :
    (projectReconcileDelete project nsFetch nsDelete fw).deleted = []
  ∧ (projectReconcileDelete project nsFetch nsDelete fw).finalizers
      = removeFinalizer project.finalizers FinalizerName
  ∧ (fw = none →
      (projectReconcileDelete project nsFetch nsDelete fw).outcome = .done) := by
  cases fw <;> simp [projectReconcileDelete, h, projectDeleteLoop]

/-- Claim C8, witness: a project that never reached Ready (empty owned
list) is cleaned up without a single deletion. -/
theorem c8_witness :
    (projectReconcileDelete wDelProjectEmpty wNsFetch wNsDelete none).deleted = []
  ∧ (projectReconcileDelete wDelProjectEmpty wNsFetch wNsDelete none).outcome
      = .done := by
  have h := c8_empty_owned_list_no_deletions wDelProjectEmpty wNsFetch
    wNsDelete none rfl
  exact ⟨h.1, h.2.2 rfl⟩

end KalypsoServing
